import Mathlib

/-!
# keyleds: color values and the Lua capability surface

A shallow embedding of `keyledsd/include/keyledsd/colors.h` (the color value
types and their comparison operators) and of
`keyledsd/plugins/src/lua/Environment.cxx` (the global functions the effect
scripts see, and the controller slot of `Environment`).

The Lua C API is modelled as explicit state passing on a `LuaState`: the
operand stack of the running C function, the globals table, the metatable
entries of the registry and the tables allocated so far.  What the Lua virtual
machine, the C library and the `Controller` object compute is gathered in a
`Host` record of functions.
-/

namespace keyleds

/-! ## colors.h -/

/-- The `channel_type` of both color structures: `unsigned char`. -/
abbrev channel_type := Fin 256

/-- The `RGBColor` structure: a single R8G8B8 value. -/
structure RGBColor where
  red : channel_type
  green : channel_type
  blue : channel_type
deriving DecidableEq, Repr

/-- The `RGBAColor` structure: a single R8G8B8A8 value. -/
structure RGBAColor where
  red : channel_type
  green : channel_type
  blue : channel_type
  alpha : channel_type
deriving DecidableEq, Repr

/-- The value `std::numeric_limits<channel_type>::max()`. -/
def channel_max : channel_type := 255

/-- The explicit constructor `RGBAColor(RGBColor c, channel_type a)`. -/
def RGBAColor.ofRGB (c : RGBColor) (a : channel_type) : RGBAColor :=
  { red := c.red, green := c.green, blue := c.blue, alpha := a }

/-- The comparison `operator==(RGBColor, RGBColor)`. -/
def RGBColor.eq (a b : RGBColor) : Bool :=
  decide (a.red = b.red) && decide (a.green = b.green) && decide (a.blue = b.blue)

/-- The comparison `operator!=(RGBColor, RGBColor)`. -/
def RGBColor.ne (a b : RGBColor) : Bool := !(RGBColor.eq a b)

/-- The comparison `operator==(RGBAColor, RGBAColor)`: the alpha channel is not read. -/
def RGBAColor.eq (a b : RGBAColor) : Bool :=
  decide (a.red = b.red) && decide (a.green = b.green) && decide (a.blue = b.blue)

/-- The comparison `operator!=(RGBAColor, RGBAColor)`. -/
def RGBAColor.ne (a b : RGBAColor) : Bool := !(RGBAColor.eq a b)

/-! ## The Lua values and the engine state -/

/-- A C address; `0` is the null pointer. -/
abbrev Pointer := Nat

/-- A `lua_Number`, kept as the bit pattern of the `double`.  The functions
modelled here only copy numbers and test whether a value is one. -/
abbrev lua_Number := Nat

/-- The `lua_Number` written `1.0` in the source (binary64 pattern). -/
def lua_Number.one : lua_Number := 0x3FF0000000000000

/-- The names `metatable<T>::name` under which `registerType<T>` files the
metatable of `T` in the registry.  The strings themselves are declared in
headers that are not part of the sources. -/
inductive MetatableName
  | Interpolator
  | KeyDatabase
  | KeyGroup
  | Key
  | RenderTarget
  | RGBAColor
  | Thread
deriving DecidableEq, Repr

/-- The C functions a Lua value can hold: the entry points of
`keyledsGlobals`, and the functions of the Lua standard libraries by their
global name. -/
inductive CFunction
  | luaNewInterpolator
  | luaPrint
  | luaNewThread
  | luaToColor
  | luaWait
  | process_data
  | lib (name : String)
deriving DecidableEq, Repr

/-- The table a table value refers to: the table of globals or an allocated table. -/
inductive TableRef
  | globals
  | obj (n : Nat)
deriving DecidableEq, Repr

/-- A Lua value as the C API sees it. -/
inductive LuaValue
  | nil
  | boolean (b : Bool)
  | number (n : lua_Number)
  | string (s : String)
  | lightuserdata (p : Pointer)
  | table (ref : TableRef)
  | cfunction (f : CFunction)
  | lfunction (id : Nat)
  | userdata (id : Nat)
  | thread (id : Nat)
  | handle (tag : MetatableName) (color : RGBAColor)
deriving DecidableEq, Repr

/-- The contents of a table: its metatable, the entries under keys taken from
the stack or given as field names, and the entries under the integer keys of
`lua_rawseti`.  A number key equal to an integer addresses the integer slot in
Lua; no function modelled here uses such a key. -/
structure TableObj where
  metatable : LuaValue
  hash : LuaValue → LuaValue
  array : Int → LuaValue

/-- A table without entries, as `lua_createtable` returns it. -/
def TableObj.empty : TableObj :=
  { metatable := LuaValue.nil, hash := fun _ => LuaValue.nil, array := fun _ => LuaValue.nil }

/-- The engine state a C function works on: its stack frame (index 1 first,
top last), the table of globals, the allocated tables with the next free
reference, the metatables filed in the registry, and the two counters of
nested C calls that `lua_yield` compares (`nCcalls` now, `baseCcalls` when the
running routine was resumed). -/
structure LuaState where
  stack : List LuaValue
  globals : TableObj
  heap : Nat → TableObj
  nextRef : Nat
  registry : MetatableName → LuaValue
  nCcalls : Nat
  baseCcalls : Nat

/-- The calls made on the `Controller` object. -/
inductive Event
  | print (controller : Pointer) (text : String)
  | parseColor (controller : Pointer) (text : String)
deriving DecidableEq, Repr

/-- What the code calls but does not define: the Lua virtual machine, the C
library and the attached `Controller` object. -/
structure Host where
  /-- The address of the static `controllerToken`. -/
  controllerToken : Pointer
  /-- The address of the static `Environment::waitToken`. -/
  waitToken : Pointer
  /-- What `lua_pcall(L, 1, 1, 0)` does when it calls a function on an
  argument in a state: the value it leaves on the stack (the first result, or
  the error value when the call fails, as it does for a value that cannot be
  called), the engine state the code it ran leaves behind, and the calls that
  code made on the controller. -/
  pcall : LuaState → LuaValue → LuaValue → LuaValue × LuaState × List Event
  /-- The conversion `lua_number2str`. -/
  number2str : lua_Number → String
  /-- The conversion `luaO_str2d`: the number a string converts to, if any. -/
  str2d : String → Option lua_Number
  /-- The address `lua_topointer` reports for a collectable object. -/
  objectAddress : LuaValue → Pointer
  /-- The method `Controller::parseColor` of the controller at an address. -/
  parseColor : Pointer → String → Option RGBAColor

/-- The errors `luaL_error` and `luaL_argerror` raise. -/
inductive LuaError
  | noEffectToken
  | message (text : String)
  | argerror (narg : Nat) (extramsg : String)
deriving DecidableEq, Repr

/-- How a call of a C function ends. `undefined` stands for behaviour the C++
standard leaves undefined. -/
inductive Outcome
  | returned (nresults : Nat)
  | error (e : LuaError)
  | yielded (nresults : Nat)
  | undefined
deriving DecidableEq, Repr

/-- The result of running an entry point: how it ended, the state it left and
the calls it made on the controller, in order. -/
structure Result where
  outcome : Outcome
  lua : LuaState
  events : List Event

/-! ## The Lua C API -/

/-- The pseudo-index `LUA_REGISTRYINDEX`. -/
def LUA_REGISTRYINDEX : Int := -10000

/-- The pseudo-index `LUA_GLOBALSINDEX`. -/
def LUA_GLOBALSINDEX : Int := -10002

/-- The table behind a reference. -/
def LuaState.getTable (L : LuaState) : TableRef → TableObj
  | TableRef.globals => L.globals
  | TableRef.obj n => L.heap n

/-- Replace the table behind a reference. -/
def LuaState.setTable (L : LuaState) (r : TableRef) (t : TableObj) : LuaState :=
  match r with
  | TableRef.globals => { L with globals := t }
  | TableRef.obj n => { L with heap := fun m => if m = n then t else L.heap m }

/-- The function `index2adr`: the value at an acceptable index, `none` where
the index lies outside the frame (the C function answers `luaO_nilobject`). -/
def index2adr (L : LuaState) (idx : Int) : Option LuaValue :=
  if 0 < idx then L.stack[(idx - 1).toNat]?
  else if LUA_REGISTRYINDEX < idx then
    if idx < 0 ∧ (-idx).toNat ≤ L.stack.length then L.stack[L.stack.length - (-idx).toNat]?
    else none
  else if idx = LUA_GLOBALSINDEX then some (LuaValue.table TableRef.globals)
  else none

/-- Overwrite the stack slot at a positive or negative index. -/
def setSlot (L : LuaState) (idx : Int) (v : LuaValue) : LuaState :=
  if 0 < idx then { L with stack := L.stack.set (idx - 1).toNat v }
  else if idx < 0 ∧ (-idx).toNat ≤ L.stack.length then
    { L with stack := L.stack.set (L.stack.length - (-idx).toNat) v }
  else L

/-- The function `lua_gettop`. -/
def lua_gettop (L : LuaState) : Nat := L.stack.length

/-- Push one value (the `api_incr_top` step shared by the push functions). -/
def push (L : LuaState) (v : LuaValue) : LuaState := { L with stack := L.stack ++ [v] }

/-- The macro `lua_pop(L, n)`. -/
def lua_pop (L : LuaState) (n : Nat) : LuaState :=
  { L with stack := L.stack.take (L.stack.length - n) }

/-- The function `lua_pushnil`. -/
def lua_pushnil (L : LuaState) : LuaState := push L LuaValue.nil

/-- The function `lua_pushnumber`. -/
def lua_pushnumber (L : LuaState) (n : lua_Number) : LuaState := push L (LuaValue.number n)

/-- The function `lua_pushlightuserdata`. -/
def lua_pushlightuserdata (L : LuaState) (p : Pointer) : LuaState :=
  push L (LuaValue.lightuserdata p)

/-- The macro `lua_pushcfunction`. -/
def lua_pushcfunction (L : LuaState) (f : CFunction) : LuaState := push L (LuaValue.cfunction f)

/-- The function `lua_pushvalue`. -/
def lua_pushvalue (L : LuaState) (idx : Int) : LuaState :=
  push L ((index2adr L idx).getD LuaValue.nil)

/-- The test `lua_isstring` makes on a value: a string, or a number (which converts to one). -/
def LuaValue.isstring : LuaValue → Bool
  | LuaValue.string _ => true
  | LuaValue.number _ => true
  | _ => false

/-- The test `lua_isnumber` makes on a value: a number, or a string that converts to one. -/
def LuaValue.isnumber (h : Host) : LuaValue → Bool
  | LuaValue.number _ => true
  | LuaValue.string s => (h.str2d s).isSome
  | _ => false

/-- The function `lua_isstring`: false at an index outside the frame. -/
def lua_isstring (L : LuaState) (idx : Int) : Bool :=
  match index2adr L idx with
  | some v => v.isstring
  | none => false

/-- The function `lua_isnumber`: false at an index outside the frame. -/
def lua_isnumber (h : Host) (L : LuaState) (idx : Int) : Bool :=
  match index2adr L idx with
  | some v => v.isnumber h
  | none => false

/-- The conversion behind `lua_tolstring`, on a value: the bytes of a string,
the formatted digits of a number, nothing for any other value. -/
def LuaValue.tolstring (h : Host) : LuaValue → Option String
  | LuaValue.string s => some s
  | LuaValue.number n => some (h.number2str n)
  | _ => none

/-- The function `lua_tolstring`: the bytes of a string; a number is converted
to a string in its stack slot first; `none` (the C function answers `NULL`) for
every other value. -/
def lua_tolstring (h : Host) (L : LuaState) (idx : Int) : Option String × LuaState :=
  match index2adr L idx with
  | some (LuaValue.string s) => (some s, L)
  | some (LuaValue.number n) =>
      (some (h.number2str n), setSlot L idx (LuaValue.string (h.number2str n)))
  | _ => (none, L)

/-- The function `lua_topointer`. -/
def lua_topointer (h : Host) (L : LuaState) (idx : Int) : Pointer :=
  match index2adr L idx with
  | some (LuaValue.lightuserdata p) => p
  | some (LuaValue.table r) => h.objectAddress (LuaValue.table r)
  | some (LuaValue.cfunction f) => h.objectAddress (LuaValue.cfunction f)
  | some (LuaValue.lfunction i) => h.objectAddress (LuaValue.lfunction i)
  | some (LuaValue.userdata i) => h.objectAddress (LuaValue.userdata i)
  | some (LuaValue.thread i) => h.objectAddress (LuaValue.thread i)
  | some (LuaValue.handle t c) => h.objectAddress (LuaValue.handle t c)
  | _ => 0

/-- Raw read of a table under a key. -/
def TableObj.rawget (t : TableObj) (k : LuaValue) : LuaValue := t.hash k

/-- Raw write of a table under a key. -/
def TableObj.rawset (t : TableObj) (k v : LuaValue) : TableObj :=
  { t with hash := fun k' => if k' = k then v else t.hash k' }

/-- Raw write of a table under an integer key. -/
def TableObj.rawseti (t : TableObj) (n : Int) (v : LuaValue) : TableObj :=
  { t with array := fun m => if m = n then v else t.array m }

/-- The function `lua_rawset`: the table at `idx` gets the value on top under
the key just below it, and both are popped. -/
def lua_rawset (L : LuaState) (idx : Int) : LuaState :=
  match index2adr L idx, index2adr L (-2), index2adr L (-1) with
  | some (LuaValue.table r), some k, some v =>
      lua_pop (L.setTable r ((L.getTable r).rawset k v)) 2
  | _, _, _ => lua_pop L 2

/-- The function `lua_rawget`: the key on top is replaced by the value the
table at `idx` holds under it. -/
def lua_rawget (L : LuaState) (idx : Int) : LuaState :=
  match index2adr L idx, index2adr L (-1) with
  | some (LuaValue.table r), some k => push (lua_pop L 1) ((L.getTable r).rawget k)
  | _, _ => push (lua_pop L 1) LuaValue.nil

/-- The function `lua_rawseti`: the table at `idx` gets the value on top under
the integer key `n`, and the value is popped. -/
def lua_rawseti (L : LuaState) (idx : Int) (n : Int) : LuaState :=
  match index2adr L idx, index2adr L (-1) with
  | some (LuaValue.table r), some v => lua_pop (L.setTable r ((L.getTable r).rawseti n v)) 1
  | _, _ => lua_pop L 1

/-- The function `lua_getfield`, for a table without `__index` metamethod. -/
def lua_getfield (L : LuaState) (idx : Int) (k : String) : LuaState :=
  match index2adr L idx with
  | some (LuaValue.table r) => push L ((L.getTable r).rawget (LuaValue.string k))
  | _ => push L LuaValue.nil

/-- The function `lua_setfield`, for a table without `__newindex` metamethod. -/
def lua_setfield (L : LuaState) (idx : Int) (k : String) : LuaState :=
  match index2adr L idx, index2adr L (-1) with
  | some (LuaValue.table r), some v =>
      lua_pop (L.setTable r ((L.getTable r).rawset (LuaValue.string k) v)) 1
  | _, _ => lua_pop L 1

/-- The macro `lua_getglobal(L, s)`: `lua_getfield(L, LUA_GLOBALSINDEX, s)`. -/
def lua_getglobal (L : LuaState) (s : String) : LuaState := lua_getfield L LUA_GLOBALSINDEX s

/-- The macro `lua_setglobal(L, s)`: `lua_setfield(L, LUA_GLOBALSINDEX, s)`. -/
def lua_setglobal (L : LuaState) (s : String) : LuaState := lua_setfield L LUA_GLOBALSINDEX s

/-- The function `lua_createtable`: a new empty table is allocated and pushed. -/
def lua_createtable (L : LuaState) : LuaState :=
  push { L with heap := fun m => if m = L.nextRef then TableObj.empty else L.heap m,
                nextRef := L.nextRef + 1 }
    (LuaValue.table (TableRef.obj L.nextRef))

/-- The macro `luaL_getmetatable(L, name)`: the registry entry under the name is pushed. -/
def luaL_getmetatable (L : LuaState) (name : MetatableName) : LuaState := push L (L.registry name)

/-- The function `lua_setmetatable`: the value on top is popped and becomes
the metatable of the table at `idx`. -/
def lua_setmetatable (L : LuaState) (idx : Int) : LuaState :=
  match index2adr L idx, index2adr L (-1) with
  | some (LuaValue.table r), some mt =>
      lua_pop (L.setTable r { L.getTable r with metatable := mt }) 1
  | _, _ => lua_pop L 1

/-- The function `lua_insert(L, 1)`: the value on top moves to index 1 and the
values from there on shift up. -/
def lua_insert_1 (L : LuaState) : LuaState :=
  match L.stack.getLast? with
  | some v => { L with stack := v :: L.stack.dropLast }
  | none => L

/-- The caller's state once a call it made is over: the engine as the callee
left it, with the frame and the call counters of the caller, which the callee
cannot reach. -/
def LuaState.afterCall (L callee : LuaState) : LuaState :=
  { callee with stack := L.stack, nCcalls := L.nCcalls, baseCcalls := L.baseCcalls }

/-- The function `lua_pcall(L, 1, 1, 0)`: the function and its argument on top
are replaced by the one value the call leaves; the globals, the tables and the
registry are as the called code left them.  Also the calls that code made on
the controller. -/
def lua_pcall (h : Host) (L : LuaState) : LuaState × List Event :=
  let f := (index2adr L (-2)).getD LuaValue.nil
  let a := (index2adr L (-1)).getD LuaValue.nil
  let r := h.pcall (lua_pop L 2) f a
  (push ((lua_pop L 2).afterCall r.2.1) r.1, r.2.2)

/-- The function `lua_pushlstring`: the first `len` bytes of a buffer are pushed as a string. -/
def lua_pushlstring (L : LuaState) (buffer : String) (len : Nat) : LuaState :=
  push L (LuaValue.string (buffer.take len))

/-- The function `luaL_error`: the call ends with the error, nothing is returned. -/
def luaL_error (L : LuaState) (e : LuaError) (events : List Event) : Result :=
  { outcome := Outcome.error e, lua := L, events := events }

/-- The function `luaL_argerror`. -/
def luaL_argerror (L : LuaState) (narg : Nat) (extramsg : String) : Result :=
  { outcome := Outcome.error (LuaError.argerror narg extramsg), lua := L, events := [] }

/-- The function `lua_yield(L, nresults)` of Lua 5.1: when C calls are nested
above the resume of the running routine (`L->nCcalls > L->baseCcalls`, as in
the main state or below a `pcall`) it raises a runtime error; otherwise the
call ends by handing the `nresults` values on top to the resumer. -/
def lua_yield (L : LuaState) (nresults : Nat) : Result :=
  if L.nCcalls > L.baseCcalls then
    { outcome := Outcome.error
        (LuaError.message "attempt to yield across metamethod/C-call boundary"),
      lua := L, events := [] }
  else { outcome := Outcome.yielded nresults, lua := L, events := [] }

/-- The values a call hands over: the `nresults` values on top of its frame
when it returns or yields, none when it raises an error. -/
def Result.values (r : Result) : List LuaValue :=
  match r.outcome with
  | Outcome.returned n => r.lua.stack.drop (r.lua.stack.length - n)
  | Outcome.yielded n => r.lua.stack.drop (r.lua.stack.length - n)
  | _ => []

/-- The function `luaL_register(L, NULL, l)`: every function of the list is
stored under its name in the table on top of the stack. -/
def luaL_register (L : LuaState) (l : List (String × CFunction)) : LuaState :=
  l.foldl (fun L r => lua_setfield (lua_pushcfunction L r.2) (-2) r.1) L

/-- The global functions the standard libraries install (`base_funcs` and
`auxopen` of the base library, `ll_funcs` of the package library). -/
def stdlibFunctions : List String :=
  ["assert", "collectgarbage", "dofile", "error", "gcinfo", "getfenv", "getmetatable",
   "loadfile", "load", "loadstring", "next", "pcall", "print", "rawequal", "rawget", "rawset",
   "select", "setfenv", "setmetatable", "tonumber", "tostring", "type", "unpack", "xpcall",
   "ipairs", "pairs", "newproxy", "require", "module"]

/-- The global tables the standard libraries install. -/
def stdlibTables : List String :=
  ["coroutine", "package", "table", "io", "os", "string", "math", "debug"]

/-- The function `luaL_openlibs` of Lua 5.1, as far as the table of globals
goes: `_G`, `_VERSION`, the global functions and one table per library are
stored under their names; the stack is left as found.  What the library tables
hold is not modelled. -/
def luaL_openlibs (L : LuaState) : LuaState :=
  let L := lua_setglobal (lua_pushvalue L LUA_GLOBALSINDEX) "_G"
  let L := lua_setglobal (push L (LuaValue.string "Lua 5.1")) "_VERSION"
  let L := lua_pushvalue L LUA_GLOBALSINDEX
  let L := luaL_register L (stdlibFunctions.map (fun n => (n, CFunction.lib n)))
  let L := lua_pop L 1
  stdlibTables.foldl (fun L n => lua_setglobal (lua_createtable L) n) L

/-! ## Environment.cxx -/

/-- Modelled from the spec: `lua_push(lua, RGBAColor)` of `lua_common.h`,
which is not part of the sources.  "`push<T>(engine, value)` creates a
script-visible handle carrying [...] a copy (value types: colors) [...] tagged
with T's descriptor", and leaves the stack one value larger. -/
def lua_push (L : LuaState) (value : RGBAColor) : LuaState :=
  push L (LuaValue.handle MetatableName.RGBAColor value)

/-- Modelled from the spec: `registerType<T>` of `lua_common.h`, which is not
part of the sources.  "`register<T>(engine)` installs a Binding Descriptor for
T exactly once per engine instance; [...] installing twice must not corrupt
engine state", with the stack as large at exit as at entry: a new table is
filed in the registry under the name of the type unless one is there. -/
def registerType (name : MetatableName) (L : LuaState) : LuaState :=
  match L.registry name with
  | LuaValue.nil =>
      let L := lua_createtable L
      let L := { L with registry := fun n => if n = name then (index2adr L (-1)).getD LuaValue.nil
                                             else L.registry n }
      lua_pop L 1
  | _ => L

/-- The method `Environment::controller`: the pointer read from the globals
under the light userdata `controllerToken`, and the state the call leaves.
`SAVE_TOP` and `CHECK_TOP(m_lua, 0)` assert that the stack is as high at exit
as at entry. -/
def Environment.controller (h : Host) (L : LuaState) : Pointer × LuaState :=
  let L := lua_pushlightuserdata L h.controllerToken
  let L := lua_rawget L LUA_GLOBALSINDEX
  let controller := lua_topointer h L (-1)
  let L := lua_pop L 1
  (controller, L)

/-- What `buffer << s` inserts for a `const char *`: the bytes before the first NUL. -/
def cstring (s : String) : String := String.mk (s.data.takeWhile (fun c => c ≠ Char.ofNat 0))

/-- The loop of `luaPrint`, `count` iterations from index `idx` on: each
argument is passed to the global `tostring` in a protected call and the C
string of the result is appended to the buffer; the calls the called code made
on the controller are collected.  `none` when `lua_tostring` answers `NULL`,
which `operator<<` must not be given. -/
def luaPrint.loop (h : Host) :
    Nat → Int → LuaState → String → List Event → Option (LuaState × String × List Event)
  | 0, _, L, buffer, events => some (L, buffer, events)
  | count + 1, idx, L, buffer, events =>
      let L := lua_getglobal L "tostring"
      let L := lua_pushvalue L idx
      let called := lua_pcall h L
      match lua_tolstring h called.1 (-1) with
      | (some s, L) =>
          luaPrint.loop h count (idx + 1) (lua_pop L 1) (buffer ++ cstring s) (events ++ called.2)
      | (none, _) => none

/-- The entry point `luaPrint`. -/
def luaPrint (h : Host) (L : LuaState) : Result :=
  let nargs := lua_gettop L
  match luaPrint.loop h nargs 1 L "" [] with
  | none => { outcome := Outcome.undefined, lua := L, events := [] }
  | some (L, buffer, events) =>
      let controller := (Environment.controller h L).1
      let L := (Environment.controller h L).2
      if controller = 0 then luaL_error L LuaError.noEffectToken events
      else
        { outcome := Outcome.returned 0, lua := L,
          events := events ++ [Event.print controller buffer] }

/-- The last two statements of `luaToColor`: `lua_pushnil(lua); return 1;`. -/
def luaToColor.fallthrough (L : LuaState) (events : List Event) : Result :=
  { outcome := Outcome.returned 1, lua := lua_pushnil L, events := events }

/-- The entry point `luaToColor`. -/
def luaToColor (h : Host) (L : LuaState) : Result :=
  let nargs := lua_gettop L
  if nargs = 1 then
    if lua_isstring L 1 then
      let controller := (Environment.controller h L).1
      let L := (Environment.controller h L).2
      if controller = 0 then luaL_error L LuaError.noEffectToken []
      else
        let string := ((lua_tolstring h L 1).1).getD ""
        let L := (lua_tolstring h L 1).2
        match h.parseColor controller string with
        | some color =>
            { outcome := Outcome.returned 1, lua := lua_push L color,
              events := [Event.parseColor controller string] }
        | none => luaToColor.fallthrough L [Event.parseColor controller string]
    else luaToColor.fallthrough L []
  else if 3 ≤ nargs ∧ nargs ≤ 4 then
    let L := if nargs = 3 then lua_pushnumber L lua_Number.one else L
    if lua_isnumber h L 1 && lua_isnumber h L 2 && lua_isnumber h L 3 && lua_isnumber h L 4 then
      let L := lua_createtable L
      let L := luaL_getmetatable L MetatableName.RGBAColor
      let L := lua_setmetatable L (-2)
      let L := lua_insert_1 L
      let L := lua_rawseti L 1 4
      let L := lua_rawseti L 1 3
      let L := lua_rawseti L 1 2
      let L := lua_rawseti L 1 1
      { outcome := Outcome.returned 1, lua := L, events := [] }
    else luaToColor.fallthrough L []
  else luaToColor.fallthrough L []

/-- The entry point `luaWait`. -/
def luaWait (h : Host) (L : LuaState) : Result :=
  if !lua_isnumber h L 1 then luaL_argerror L 1 "Duration must be a number"
  else
    let L := lua_pushlightuserdata L h.waitToken
    let L := lua_pushvalue L 1
    lua_yield L 2

/-- The value of `errno` named `EAGAIN`. -/
def EAGAIN : Nat := 11

/-- What one call of `read` gives: the count it returns, `errno` after it and
the bytes it stored. -/
structure ReadResult where
  bytes_read : Int
  errno : Nat
  buffer : String

/-- The FIFO as `process_data` meets it: the descriptor `open` returns for a
path (`-1` on failure) and the result of the n-th call of `read`. -/
structure Fifo where
  fd : Option String → Int
  read : Nat → ReadResult

/-- The `while (true)` loop of `process_data` from the n-th `read` on, run for
at most `fuel` iterations: `none` when the loop is still running after them. -/
def process_data.loop (io : Fifo) : Nat → Nat → LuaState → Option Result
  | 0, _, _ => none
  | fuel + 1, n, L =>
      let r := io.read n
      if 0 < r.bytes_read then
        process_data.loop io fuel (n + 1) (lua_pushlstring L r.buffer r.bytes_read.toNat)
      else if r.bytes_read = -1 ∧ r.errno ≠ EAGAIN then
        some (luaL_error L (LuaError.message "Failed to read from FIFO") [])
      else process_data.loop io fuel (n + 1) L

/-- The entry point `process_data`, its loop run for at most `fuel` iterations. -/
def process_data (h : Host) (io : Fifo) (fuel : Nat) (L : LuaState) : Option Result :=
  let fifo_path := (lua_tolstring h L 1).1
  let L := (lua_tolstring h L 1).2
  if io.fd fifo_path = -1 then some (luaL_error L (LuaError.message "Failed to open FIFO") [])
  else process_data.loop io fuel 0 L

/-- The table `keyledsGlobals`. -/
def keyledsGlobals : List (String × CFunction) :=
  [("fade", CFunction.luaNewInterpolator),
   ("print", CFunction.luaPrint),
   ("thread", CFunction.luaNewThread),
   ("tocolor", CFunction.luaToColor),
   ("wait", CFunction.luaWait),
   ("process_data", CFunction.process_data)]

/-- The method `Environment::openKeyleds`. -/
def Environment.openKeyleds (h : Host) (L : LuaState) (controller : Pointer) : LuaState :=
  let L := lua_pushlightuserdata L h.controllerToken
  let L := lua_pushlightuserdata L controller
  let L := lua_rawset L LUA_GLOBALSINDEX
  let L := registerType MetatableName.Interpolator L
  let L := registerType MetatableName.KeyDatabase L
  let L := registerType MetatableName.KeyGroup L
  let L := registerType MetatableName.Key L
  let L := registerType MetatableName.RenderTarget L
  let L := registerType MetatableName.RGBAColor L
  let L := registerType MetatableName.Thread L
  let L := lua_pushvalue L LUA_GLOBALSINDEX
  let L := luaL_register L keyledsGlobals
  let L := lua_pop L 1
  luaL_openlibs L

/-- The value a script reads from a global variable. -/
def LuaState.global (L : LuaState) (name : String) : LuaValue :=
  L.globals.rawget (LuaValue.string name)

/-- An engine on which nothing was registered: no globals, no tables, an empty
frame, no C call under way. -/
def LuaState.fresh : LuaState :=
  { stack := [], globals := TableObj.empty, heap := fun _ => TableObj.empty, nextRef := 0,
    registry := fun _ => LuaValue.nil, nCcalls := 0, baseCcalls := 0 }

/-- The script-level `tostring` of each argument, in the words of the spec
("stringifies each argument using the script's generic string-conversion
hook"): the arguments are handed in order to the global `tostring`, each call
in the state the call before left, and each result is read as text.  The
texts, the state after the last call and the calls made on the controller
meanwhile; `none` when a result is neither a string nor a number. -/
def tostringAll (h : Host) : List LuaValue → LuaState → Option (List String × LuaState × List Event)
  | [], S => some ([], S, [])
  | v :: vs, S =>
      match ((h.pcall S (S.global "tostring") v).1).tolstring h,
          tostringAll h vs (S.afterCall (h.pcall S (S.global "tostring") v).2.1) with
      | some t, some (ts, S', events) =>
          some (t :: ts, S', (h.pcall S (S.global "tostring") v).2.2 ++ events)
      | _, _ => none

/-! ## Concrete hosts and states -/

/-- A host for concrete runs.  Its protected call knows one function, the
`tostring` of the base library, which changes nothing in the engine, calls
nothing on the controller and answers a string as it is, "nil", "true" and
"false" for nil and the booleans, the digits for a number and "object" for
anything else; for every other value it is asked to call, nil among them, the
call fails and leaves the error message.  No string converts to a number, and
the controller parses the color `#112233`. -/
def exampleHost : Host :=
  { controllerToken := 4096
    waitToken := 8192
    pcall := fun S f a =>
      if f = LuaValue.cfunction (CFunction.lib "tostring") then
        (match a with
          | LuaValue.string s => LuaValue.string s
          | LuaValue.nil => LuaValue.string "nil"
          | LuaValue.boolean true => LuaValue.string "true"
          | LuaValue.boolean false => LuaValue.string "false"
          | LuaValue.number _ => LuaValue.string "5"
          | _ => LuaValue.string "object", S, [])
      else (LuaValue.string "attempt to call a nil value", S, [])
    number2str := fun _ => "5"
    str2d := fun _ => none
    objectAddress := fun _ => 12288
    parseColor := fun _ s => if s = "#112233" then some (RGBAColor.mk 17 34 51 255) else none }

/-- A call with the given arguments on an engine without controller. -/
def exampleDetached (args : List LuaValue) : LuaState :=
  { LuaState.fresh with stack := args }

/-- A call with the given arguments on an engine whose controller slot holds the address `c`. -/
def exampleAttached (c : Pointer) (args : List LuaValue) : LuaState :=
  { LuaState.fresh with
    stack := args
    globals := TableObj.empty.rawset (LuaValue.lightuserdata exampleHost.controllerToken)
      (LuaValue.lightuserdata c) }

/-- A call with the given arguments on the engine as `openKeyleds(c)` leaves a
fresh one, made from a routine that was resumed and may yield. -/
def exampleOpened (c : Pointer) (args : List LuaValue) : LuaState :=
  { Environment.openKeyleds exampleHost LuaState.fresh c with
    stack := args
    nCcalls := 1
    baseCcalls := 1 }

/-- A call with the given arguments made from the main state through
`lua_pcall`: one C call is under way and no routine was resumed. -/
def exampleMain (args : List LuaValue) : LuaState :=
  { LuaState.fresh with stack := args, nCcalls := 1, baseCcalls := 0 }

/-- A FIFO that opens and whose every `read` finds no data: `-1` with `errno` at `EAGAIN`. -/
def exampleIdleFifo : Fifo :=
  { fd := fun _ => 3
    read := fun _ => { bytes_read := -1, errno := EAGAIN, buffer := "" } }

/-! ## Colors -/

/-- C1: `RGBAColor` equality ignores alpha.  `a == b` holds exactly when red,
green and blue agree; two colors that differ in alpha only compare equal; and
`a != b` is the negation of `a == b`. -/
theorem RGBAColor_eq_ignores_alpha :
    (∀ a b : RGBAColor,
        RGBAColor.eq a b = true ↔ (a.red = b.red ∧ a.green = b.green ∧ a.blue = b.blue)) ∧
    (∀ r g b a1 a2 : channel_type, a1 ≠ a2 →
        RGBAColor.eq (RGBAColor.mk r g b a1) (RGBAColor.mk r g b a2) = true) ∧
    (∀ a b : RGBAColor, RGBAColor.ne a b = !(RGBAColor.eq a b)) := by
  refine ⟨?_, ?_, ?_⟩
  · intro a b
    simp [RGBAColor.eq, and_assoc]
  · intro r g b a1 a2 _
    simp [RGBAColor.eq]
  · intro a b
    rfl

/-- C1 at a concrete pair: transparent and opaque `(1, 2, 3)` are different
values and compare equal. -/
theorem RGBAColor_eq_ignores_alpha_witness :
    RGBAColor.mk 1 2 3 0 ≠ RGBAColor.mk 1 2 3 255 ∧
      RGBAColor.eq (RGBAColor.mk 1 2 3 0) (RGBAColor.mk 1 2 3 255) = true :=
  ⟨by decide, RGBAColor_eq_ignores_alpha.2.1 1 2 3 0 255 (by decide)⟩

/-! ## Stack lemmas -/

/-- The pseudo-index of the globals resolves to the table of globals. -/
theorem index2adr_globals (L : LuaState) :
    index2adr L LUA_GLOBALSINDEX = some (LuaValue.table TableRef.globals) := by
  simp [index2adr, LUA_GLOBALSINDEX, LUA_REGISTRYINDEX]

/-- Index `-1` is the value pushed last. -/
theorem index2adr_push_top (L : LuaState) (v : LuaValue) : index2adr (push L v) (-1) = some v := by
  simp [index2adr, LUA_REGISTRYINDEX, push]

/-- Index `-2` is the value pushed before the last. -/
theorem index2adr_push_below (L : LuaState) (a b : LuaValue) :
    index2adr (push (push L a) b) (-2) = some a := by
  simp [index2adr, LUA_REGISTRYINDEX, push]
  rw [List.getElem_append_right (Nat.le_refl _)]
  simp

/-- Popping undoes a push. -/
theorem lua_pop_push (L : LuaState) (v : LuaValue) : lua_pop (push L v) 1 = L := by
  cases L
  simp [lua_pop, push]

/-- Popping two values undoes two pushes. -/
theorem lua_pop_push_push (L : LuaState) (a b : LuaValue) : lua_pop (push (push L a) b) 2 = L := by
  cases L
  simp [lua_pop, push]

/-! ## The controller slot -/

/-- The method `controller` leaves the whole state, stack and globals included, as it found it. -/
theorem controller_state (h : Host) (L : LuaState) : (Environment.controller h L).2 = L := by
  simp [Environment.controller, lua_pushlightuserdata, lua_rawget, index2adr_globals,
    index2adr_push_top, lua_pop_push]

/-- The pointer `controller` returns is read off the globals entry under the token. -/
theorem controller_value (h : Host) (L : LuaState) :
    (Environment.controller h L).1 =
      match L.globals.rawget (LuaValue.lightuserdata h.controllerToken) with
      | LuaValue.lightuserdata p => p
      | LuaValue.nil => 0
      | LuaValue.boolean _ => 0
      | LuaValue.number _ => 0
      | LuaValue.string _ => 0
      | v => h.objectAddress v := by
  simp only [Environment.controller, lua_pushlightuserdata, lua_rawget, index2adr_globals,
    index2adr_push_top, lua_pop_push, lua_topointer, LuaState.getTable]
  have : (push L (LuaValue.lightuserdata h.controllerToken)).globals = L.globals := rfl
  rw [this]
  cases L.globals.rawget (LuaValue.lightuserdata h.controllerToken) <;> rfl

/-- The example engine with a controller resolves it. -/
theorem controller_exampleAttached (c : Pointer) (args : List LuaValue) :
    (Environment.controller exampleHost (exampleAttached c args)).1 = c := by
  rw [controller_value]
  simp [exampleAttached, TableObj.rawget, TableObj.rawset]

/-- The example engine without controller resolves the null pointer. -/
theorem controller_exampleDetached (args : List LuaValue) :
    (Environment.controller exampleHost (exampleDetached args)).1 = 0 := by
  rw [controller_value]
  simp [exampleDetached, LuaState.fresh, TableObj.rawget, TableObj.empty]

/-! ## tocolor -/

/-- A call with three arguments runs as the call with `1.0` as fourth argument. -/
theorem luaToColor_default_alpha (h : Host) (L : LuaState) (r g b : LuaValue) :
    luaToColor h { L with stack := [r, g, b] } =
      luaToColor h { L with stack := [r, g, b, LuaValue.number lua_Number.one] } := by
  simp [luaToColor, lua_gettop, lua_pushnumber, push]

/-- The result of `tocolor` on four numeric arguments, in closed form. -/
theorem luaToColor_four (h : Host) (L : LuaState) (r g b a : LuaValue) (hs : L.stack = [r, g, b, a])
    (hr : r.isnumber h = true) (hg : g.isnumber h = true) (hb : b.isnumber h = true)
    (ha : a.isnumber h = true) :
    luaToColor h L =
      { outcome := Outcome.returned 1,
        lua :=
          { stack := [LuaValue.table (TableRef.obj L.nextRef)],
            globals := L.globals,
            heap := fun m =>
              if m = L.nextRef then
                (((({ TableObj.empty with metatable := L.registry MetatableName.RGBAColor }.rawseti
                  4 a).rawseti 3 b).rawseti 2 g).rawseti 1 r)
              else L.heap m,
            nextRef := L.nextRef + 1,
            registry := L.registry,
            nCcalls := L.nCcalls,
            baseCcalls := L.baseCcalls },
        events := [] } := by
  simp [luaToColor, lua_gettop, lua_isnumber, index2adr, hs, hr, hg, hb, ha, LUA_REGISTRYINDEX]
  simp [lua_createtable, luaL_getmetatable, lua_setmetatable, lua_insert_1, lua_rawseti, push, lua_pop,
    index2adr, hs, LuaState.setTable, LuaState.getTable, LUA_REGISTRYINDEX]
  funext m
  split_ifs <;> rfl

/-- C2: `tocolor` with three or four numeric arguments returns exactly one
value, a new table that is the only value left on the stack, whose metatable
is the registry entry of `RGBAColor` and whose entries 1 to 4 are the
arguments R, G, B, A in that order, A being `1.0` when three arguments were
given.  The controller is not called, and the outcome, the value, the tables
and the calls are the same whatever the table of globals (which holds the
controller slot) contains. -/
theorem luaToColor_numbers (h : Host) (L : LuaState) (r g b a : LuaValue)
    (hs : L.stack = [r, g, b, a] ∨ (L.stack = [r, g, b] ∧ a = LuaValue.number lua_Number.one))
    (hr : r.isnumber h = true) (hg : g.isnumber h = true) (hb : b.isnumber h = true)
    (ha : a.isnumber h = true) :
    (luaToColor h L).outcome = Outcome.returned 1 ∧
    (luaToColor h L).values = [LuaValue.table (TableRef.obj L.nextRef)] ∧
    (luaToColor h L).lua.stack = [LuaValue.table (TableRef.obj L.nextRef)] ∧
    ((luaToColor h L).lua.heap L.nextRef).metatable = L.registry MetatableName.RGBAColor ∧
    ((luaToColor h L).lua.heap L.nextRef).array 1 = r ∧
    ((luaToColor h L).lua.heap L.nextRef).array 2 = g ∧
    ((luaToColor h L).lua.heap L.nextRef).array 3 = b ∧
    ((luaToColor h L).lua.heap L.nextRef).array 4 = a ∧
    (luaToColor h L).events = [] ∧
    (∀ G : TableObj,
      (luaToColor h { L with globals := G }).outcome = (luaToColor h L).outcome ∧
      (luaToColor h { L with globals := G }).values = (luaToColor h L).values ∧
      (luaToColor h { L with globals := G }).lua.heap = (luaToColor h L).lua.heap ∧
      (luaToColor h { L with globals := G }).events = (luaToColor h L).events) := by
  have key : ∀ G : TableObj, luaToColor h { L with globals := G } =
      { outcome := Outcome.returned 1,
        lua :=
          { stack := [LuaValue.table (TableRef.obj L.nextRef)],
            globals := G,
            heap := fun m =>
              if m = L.nextRef then
                (((({ TableObj.empty with metatable := L.registry MetatableName.RGBAColor }.rawseti
                  4 a).rawseti 3 b).rawseti 2 g).rawseti 1 r)
              else L.heap m,
            nextRef := L.nextRef + 1,
            registry := L.registry,
            nCcalls := L.nCcalls,
            baseCcalls := L.baseCcalls },
        events := [] } := by
    intro G
    rcases hs with hs | ⟨hs, rfl⟩
    · exact luaToColor_four h { L with globals := G } r g b a hs hr hg hb ha
    · have e : ({ L with globals := G } : LuaState) =
          { ({ L with globals := G } : LuaState) with stack := [r, g, b] } := by
        cases L
        simp at hs
        simp [hs]
      rw [e, luaToColor_default_alpha]
      exact luaToColor_four h _ r g b _ rfl hr hg hb ha
  have key0 := key L.globals
  have e0 : ({ L with globals := L.globals } : LuaState) = L := by cases L; rfl
  rw [e0] at key0
  refine ⟨?_, ?_, ?_, ?_, ?_, ?_, ?_, ?_, ?_, ?_⟩
  · rw [key0]
  · rw [key0]; simp [Result.values]
  · rw [key0]
  · rw [key0]; simp [TableObj.rawseti]
  · rw [key0]; simp [TableObj.rawseti]
  · rw [key0]; simp [TableObj.rawseti]
  · rw [key0]; simp [TableObj.rawseti]
  · rw [key0]; simp [TableObj.rawseti]
  · rw [key0]
  · intro G
    rw [key G, key0]
    simp [Result.values]

/-- C2 at `tocolor(17, 34, 51)` on an engine without controller: the fourth
entry of the returned table is `1.0`. -/
theorem luaToColor_numbers_witness :
    ((luaToColor exampleHost
        (exampleDetached [LuaValue.number 17, LuaValue.number 34, LuaValue.number 51])).lua.heap
      0).array 4 = LuaValue.number lua_Number.one :=
  (luaToColor_numbers exampleHost
    (exampleDetached [LuaValue.number 17, LuaValue.number 34, LuaValue.number 51])
    (LuaValue.number 17) (LuaValue.number 34) (LuaValue.number 51) (LuaValue.number lua_Number.one)
    (Or.inr ⟨rfl, rfl⟩) rfl rfl rfl rfl).2.2.2.2.2.2.2.1

/-- C3: `tocolor` with exactly one string argument `s`.  Without controller
the call raises the no-controller error and `parseColor` is not called.  With
a controller `c` the call raises no error, calls `parseColor(s)` on `c` once
and returns exactly one value: the handle `lua_push` makes for the parsed
color, or nil when parsing fails. -/
theorem luaToColor_string (h : Host) (L : LuaState) (s : String)
    (hs : L.stack = [LuaValue.string s]) :
    ((Environment.controller h L).1 = 0 →
      (luaToColor h L).outcome = Outcome.error LuaError.noEffectToken ∧
      (luaToColor h L).values = [] ∧
      (luaToColor h L).events = []) ∧
    (∀ c : Pointer, (Environment.controller h L).1 = c → c ≠ 0 →
      (luaToColor h L).outcome = Outcome.returned 1 ∧
      (luaToColor h L).events = [Event.parseColor c s] ∧
      (∀ color, h.parseColor c s = some color →
        (luaToColor h L).lua = lua_push L color ∧
        (luaToColor h L).values = [LuaValue.handle MetatableName.RGBAColor color]) ∧
      (h.parseColor c s = none → (luaToColor h L).values = [LuaValue.nil])) := by
  have e1 : lua_isstring L 1 = true := by
    simp [lua_isstring, index2adr, hs, LuaValue.isstring]
  have e2 : lua_tolstring h L 1 = (some s, L) := by
    simp [lua_tolstring, index2adr, hs]
  refine ⟨?_, ?_⟩
  · intro hc
    simp [luaToColor, lua_gettop, hs, e1, hc, luaL_error, Result.values]
  · intro c hc hne
    have hlen : L.stack.length = 1 := by simp [hs]
    cases hp : h.parseColor c s with
    | none =>
        simp [luaToColor, lua_gettop, hlen, e1, hne, controller_state, e2, hc, hp,
          luaToColor.fallthrough, Result.values, lua_pushnil, push, hs]
    | some color =>
        simp [luaToColor, lua_gettop, hlen, e1, hne, controller_state, e2, hc, hp,
          Result.values, lua_push, push, hs]

/-- C3 at `tocolor("#112233")` with a controller attached: the one value
returned is the handle of the parsed color. -/
theorem luaToColor_string_witness :
    (luaToColor exampleHost (exampleAttached 1 [LuaValue.string "#112233"])).values =
      [LuaValue.handle MetatableName.RGBAColor (RGBAColor.mk 17 34 51 255)] :=
  ((((luaToColor_string exampleHost (exampleAttached 1 [LuaValue.string "#112233"]) "#112233" rfl).2
    1 (controller_exampleAttached 1 _) (by decide)).2.2.1) (RGBAColor.mk 17 34 51 255)
      (by simp [exampleHost])).2

/-- C4: `tocolor` with two arguments, or with five or more, raises no error
and returns exactly one value, nil, whatever the arguments and the globals. -/
theorem luaToColor_arity (h : Host) (L : LuaState)
    (hn : L.stack.length = 2 ∨ 5 ≤ L.stack.length) :
    (luaToColor h L).outcome = Outcome.returned 1 ∧
    (luaToColor h L).values = [LuaValue.nil] ∧
    (luaToColor h L).lua = lua_pushnil L ∧
    (luaToColor h L).events = [] := by
  have h1 : ¬ L.stack.length = 1 := by omega
  have h2 : ¬ (3 ≤ L.stack.length ∧ L.stack.length ≤ 4) := by omega
  simp [luaToColor, lua_gettop, h1, h2, luaToColor.fallthrough, Result.values, lua_pushnil, push]

/-- C4 at `tocolor("#112233", 7)` on an engine without controller. -/
theorem luaToColor_arity_witness :
    (luaToColor exampleHost
      (exampleDetached [LuaValue.string "#112233", LuaValue.number 7])).values = [LuaValue.nil] :=
  (luaToColor_arity exampleHost
    (exampleDetached [LuaValue.string "#112233", LuaValue.number 7]) (Or.inl rfl)).2.1

/-- C5 fails as stated: `tocolor(5)`, a single number, on an engine without
controller raises the no-controller error and returns no nil. -/
theorem luaToColor_number_raises :
    (luaToColor exampleHost (exampleDetached [LuaValue.number 5])).outcome =
        Outcome.error LuaError.noEffectToken ∧
      (luaToColor exampleHost (exampleDetached [LuaValue.number 5])).values ≠ [LuaValue.nil] := by
  have hc := controller_exampleDetached [LuaValue.number 5]
  have e1 : lua_isstring (exampleDetached [LuaValue.number 5]) 1 = true := by
    simp [lua_isstring, index2adr, exampleDetached, LuaValue.isstring]
  have hlen : (exampleDetached [LuaValue.number 5]).stack.length = 1 := rfl
  simp [luaToColor, lua_gettop, hlen, e1, hc, luaL_error, Result.values]

/-- C5, amended: for every argument list that is neither a single value
`lua_isstring` accepts (a string or a number) nor three or four values that
`lua_isnumber` accepts throughout, `tocolor` raises no error, calls nothing on
the controller and returns exactly one value, nil, whatever the globals hold.
A single number is handled as a single string is: without controller the call
raises the no-controller error and `parseColor` is not called; with a
controller `c` the digits `lua_tolstring` converts the number to are parsed by
`c` and one value is returned, the handle of the color or nil. -/
theorem luaToColor_otherwise (h : Host) (L : LuaState) :
    ((∀ v, L.stack = [v] → v.isstring = false) →
      (∀ r g b, L.stack = [r, g, b] →
        (r.isnumber h && g.isnumber h && b.isnumber h) = false) →
      (∀ r g b a, L.stack = [r, g, b, a] →
        (r.isnumber h && g.isnumber h && b.isnumber h && a.isnumber h) = false) →
      (luaToColor h L).outcome = Outcome.returned 1 ∧
      (luaToColor h L).values = [LuaValue.nil] ∧
      (luaToColor h L).events = []) ∧
    (∀ n : lua_Number, L.stack = [LuaValue.number n] →
      ((Environment.controller h L).1 = 0 →
        (luaToColor h L).outcome = Outcome.error LuaError.noEffectToken ∧
        (luaToColor h L).values = [] ∧
        (luaToColor h L).events = []) ∧
      (∀ c : Pointer, (Environment.controller h L).1 = c → c ≠ 0 →
        (luaToColor h L).outcome = Outcome.returned 1 ∧
        (luaToColor h L).events = [Event.parseColor c (h.number2str n)] ∧
        (∀ color, h.parseColor c (h.number2str n) = some color →
          (luaToColor h L).values = [LuaValue.handle MetatableName.RGBAColor color]) ∧
        (h.parseColor c (h.number2str n) = none →
          (luaToColor h L).values = [LuaValue.nil]))) := by
  refine ⟨?_, ?_⟩
  · intro h1 h3 h4
    rcases hstk : L.stack with _ | ⟨v, _ | ⟨w, _ | ⟨x, _ | ⟨y, _ | ⟨z, rest⟩⟩⟩⟩⟩
    · simp [luaToColor, lua_gettop, hstk, luaToColor.fallthrough, Result.values, lua_pushnil, push]
    · have hv := h1 v hstk
      simp [luaToColor, lua_gettop, hstk, lua_isstring, index2adr, hv, luaToColor.fallthrough,
        Result.values, lua_pushnil, push]
    · simp [luaToColor, lua_gettop, hstk, luaToColor.fallthrough, Result.values, lua_pushnil, push]
    · have hv := h3 v w x hstk
      simp only [Bool.and_eq_false_iff] at hv
      rcases hv with (hv | hv) | hv <;>
      simp [luaToColor, lua_gettop, hstk, lua_isnumber, index2adr, LUA_REGISTRYINDEX,
        luaToColor.fallthrough, Result.values, lua_pushnil, lua_pushnumber, push, hv]
    · have hv := h4 v w x y hstk
      simp only [Bool.and_eq_false_iff] at hv
      rcases hv with ((hv | hv) | hv) | hv <;>
      simp [luaToColor, lua_gettop, hstk, lua_isnumber, index2adr, LUA_REGISTRYINDEX,
        luaToColor.fallthrough, Result.values, lua_pushnil, push, hv]
    · have h1 : ¬ L.stack.length = 1 := by simp [hstk]
      have h2 : ¬ (3 ≤ L.stack.length ∧ L.stack.length ≤ 4) := by simp [hstk]
      simp [luaToColor, lua_gettop, h1, h2, luaToColor.fallthrough, Result.values, lua_pushnil,
        push]
  · intro n hs
    have e1 : lua_isstring L 1 = true := by
      simp [lua_isstring, index2adr, hs, LuaValue.isstring]
    have e2 : (lua_tolstring h L 1).1 = some (h.number2str n) ∧
        (lua_tolstring h L 1).2.stack = [LuaValue.string (h.number2str n)] := by
      simp [lua_tolstring, index2adr, hs, setSlot]
    have hlen : L.stack.length = 1 := by simp [hs]
    refine ⟨?_, ?_⟩
    · intro hc
      simp [luaToColor, lua_gettop, hlen, e1, hc, luaL_error, Result.values]
    · intro c hc hne
      cases hp : h.parseColor c (h.number2str n) with
      | none =>
          simp [luaToColor, lua_gettop, hlen, e1, hne, controller_state, e2.1, e2.2, hc, hp,
            luaToColor.fallthrough, Result.values, lua_pushnil, push]
      | some color =>
          simp [luaToColor, lua_gettop, hlen, e1, hne, controller_state, e2.1, e2.2, hc, hp,
            Result.values, lua_push, push]

/-- C5, amended, at `tocolor(true)` and at `tocolor(1, {}, 3)` with a
controller attached, which both return nil, and at `tocolor(5)` with a
controller attached, which has the digits "5" parsed and returns nil as they
are no color. -/
theorem luaToColor_otherwise_witness :
    (luaToColor exampleHost (exampleAttached 1 [LuaValue.boolean true])).values = [LuaValue.nil] ∧
    (luaToColor exampleHost (exampleAttached 1
      [LuaValue.number 1, LuaValue.table (TableRef.obj 0), LuaValue.number 3])).values =
        [LuaValue.nil] ∧
    (luaToColor exampleHost (exampleAttached 1 [LuaValue.number 5])).events =
      [Event.parseColor 1 "5"] :=
  ⟨((luaToColor_otherwise exampleHost (exampleAttached 1 [LuaValue.boolean true])).1
      (fun v hv => by
        simp [exampleAttached, LuaState.fresh] at hv
        subst hv
        rfl)
      (fun r g b hv => by simp [exampleAttached, LuaState.fresh] at hv)
      (fun r g b a hv => by simp [exampleAttached, LuaState.fresh] at hv)).2.1,
   ((luaToColor_otherwise exampleHost (exampleAttached 1
      [LuaValue.number 1, LuaValue.table (TableRef.obj 0), LuaValue.number 3])).1
      (fun v hv => by simp [exampleAttached, LuaState.fresh] at hv)
      (fun r g b hv => by
        simp [exampleAttached, LuaState.fresh] at hv
        obtain ⟨rfl, rfl, rfl⟩ := hv
        rfl)
      (fun r g b a hv => by simp [exampleAttached, LuaState.fresh] at hv)).2.1,
   (((luaToColor_otherwise exampleHost (exampleAttached 1 [LuaValue.number 5])).2 5 rfl).2
      1 (controller_exampleAttached 1 _) (by decide)).2.1⟩

/-! ## wait -/

/-- C7 fails as stated: `wait(4)` called from the main state, where no routine
was resumed, has a numeric first argument and yet does not suspend: the
`lua_yield` it ends in raises a runtime error and nothing is yielded. -/
theorem luaWait_cannot_yield :
    (LuaValue.number 4).isnumber exampleHost = true ∧
    (luaWait exampleHost (exampleMain [LuaValue.number 4])).outcome =
      Outcome.error (LuaError.message "attempt to yield across metamethod/C-call boundary") ∧
    (luaWait exampleHost (exampleMain [LuaValue.number 4])).values = [] := by
  refine ⟨rfl, ?_, ?_⟩ <;>
  simp [luaWait, lua_isnumber, index2adr, LuaValue.isnumber, lua_yield, Result.values,
    lua_pushlightuserdata, lua_pushvalue, push, exampleMain, LuaState.fresh]

/-- C7, amended: `wait` raises the argument error, yielding nothing, exactly
when the first argument is missing or not numeric.  Otherwise, when the
calling routine may yield (no C call nested above its resume), it yields
exactly two values, the light userdata of `Environment::waitToken` and then
the first argument itself, whatever further arguments follow; and when the
caller may not yield, `lua_yield` raises its runtime error, which is no
argument error, and nothing is yielded. -/
theorem luaWait_spec (h : Host) (L : LuaState) :
    ((luaWait h L).outcome = Outcome.error (LuaError.argerror 1 "Duration must be a number") ↔
      ∀ v rest, L.stack = v :: rest → v.isnumber h = false) ∧
    ((∃ narg extramsg, (luaWait h L).outcome = Outcome.error (LuaError.argerror narg extramsg)) ↔
      ∀ v rest, L.stack = v :: rest → v.isnumber h = false) ∧
    ((∀ v rest, L.stack = v :: rest → v.isnumber h = false) → (luaWait h L).values = []) ∧
    (∀ v rest, L.stack = v :: rest → v.isnumber h = true → L.nCcalls ≤ L.baseCcalls →
      (luaWait h L).outcome = Outcome.yielded 2 ∧
      (luaWait h L).values = [LuaValue.lightuserdata h.waitToken, v] ∧
      (luaWait h L).events = []) ∧
    (∀ v rest, L.stack = v :: rest → v.isnumber h = true → L.baseCcalls < L.nCcalls →
      (luaWait h L).outcome =
        Outcome.error (LuaError.message "attempt to yield across metamethod/C-call boundary") ∧
      (luaWait h L).values = [] ∧
      (luaWait h L).events = []) := by
  have hnum : ∀ v rest, L.stack = v :: rest → lua_isnumber h L 1 = v.isnumber h := by
    intro v rest hs
    simp [lua_isnumber, index2adr, hs]
  have hyield : ∀ v rest, L.stack = v :: rest → v.isnumber h = true → L.nCcalls ≤ L.baseCcalls →
      (luaWait h L).outcome = Outcome.yielded 2 ∧
      (luaWait h L).values = [LuaValue.lightuserdata h.waitToken, v] ∧
      (luaWait h L).events = [] := by
    intro v rest hs hv hy
    have e := hnum v rest hs
    rw [hv] at e
    have hy' : ¬ L.baseCcalls < L.nCcalls := by omega
    simp [luaWait, e, lua_yield, Result.values, lua_pushlightuserdata, lua_pushvalue, push,
      index2adr, hs, hy']
  have hblock : ∀ v rest, L.stack = v :: rest → v.isnumber h = true → L.baseCcalls < L.nCcalls →
      (luaWait h L).outcome =
        Outcome.error (LuaError.message "attempt to yield across metamethod/C-call boundary") ∧
      (luaWait h L).values = [] ∧
      (luaWait h L).events = [] := by
    intro v rest hs hv hy
    have e := hnum v rest hs
    rw [hv] at e
    simp [luaWait, e, lua_yield, Result.values, lua_pushlightuserdata, lua_pushvalue, push, hy]
  have herr : (∀ v rest, L.stack = v :: rest → v.isnumber h = false) →
      (luaWait h L).outcome = Outcome.error (LuaError.argerror 1 "Duration must be a number") ∧
      (luaWait h L).values = [] := by
    intro hf
    have e : lua_isnumber h L 1 = false := by
      cases hs : L.stack with
      | nil => simp [lua_isnumber, index2adr, hs]
      | cons v rest => rw [hnum v rest hs]; exact hf v rest hs
    simp [luaWait, e, luaL_argerror, Result.values]
  have hback : ∀ narg extramsg,
      (luaWait h L).outcome = Outcome.error (LuaError.argerror narg extramsg) →
      ∀ v rest, L.stack = v :: rest → v.isnumber h = false := by
    intro narg extramsg he v rest hs
    cases hv : v.isnumber h with
    | false => rfl
    | true =>
        rcases Nat.lt_or_ge L.baseCcalls L.nCcalls with hy | hy
        · rw [(hblock v rest hs hv hy).1] at he
          cases he
        · rw [(hyield v rest hs hv hy).1] at he
          cases he
  refine ⟨⟨hback _ _, fun hf => (herr hf).1⟩, ⟨?_, fun hf => ⟨_, _, (herr hf).1⟩⟩,
    fun hf => (herr hf).2, hyield, hblock⟩
  rintro ⟨narg, extramsg, he⟩
  exact hback narg extramsg he

/-- C7, amended, at `wait(4, "x")` called from a resumed routine: two values
are yielded, the sentinel and the duration. -/
theorem luaWait_spec_witness :
    (luaWait exampleHost (exampleOpened 1 [LuaValue.number 4, LuaValue.string "x"])).values =
      [LuaValue.lightuserdata exampleHost.waitToken, LuaValue.number 4] :=
  ((luaWait_spec exampleHost (exampleOpened 1 [LuaValue.number 4, LuaValue.string "x"])).2.2.2.1
    (LuaValue.number 4) [LuaValue.string "x"] rfl rfl (Nat.le_refl 1)).2.1

/-! ## openKeyleds -/

/-- Pushing the pseudo-index of the globals pushes the table of globals. -/
theorem lua_pushvalue_globals (L : LuaState) :
    lua_pushvalue L LUA_GLOBALSINDEX = push L (LuaValue.table TableRef.globals) := by
  simp [lua_pushvalue, index2adr_globals]

/-- Storing a field in the table of globals found below the value on top. -/
theorem lua_setfield_globals (L : LuaState) (v : LuaValue) (k : String) :
    lua_setfield (push (push L (LuaValue.table TableRef.globals)) v) (-2) k =
      push { L with globals := L.globals.rawset (LuaValue.string k) v }
        (LuaValue.table TableRef.globals) := by
  simp only [lua_setfield, index2adr_push_below, index2adr_push_top]
  exact lua_pop_push (push { L with globals := L.globals.rawset (LuaValue.string k) v }
    (LuaValue.table TableRef.globals)) v

/-- Assigning a pushed value to a global writes the globals under the string key. -/
theorem lua_setglobal_push (L : LuaState) (v : LuaValue) (k : String) :
    lua_setglobal (push L v) k = { L with globals := L.globals.rawset (LuaValue.string k) v } := by
  simp only [lua_setglobal, lua_setfield, index2adr_globals, index2adr_push_top]
  exact lua_pop_push { L with globals := L.globals.rawset (LuaValue.string k) v } v

/-- Raw assignment in the globals of a pushed key and value. -/
theorem lua_rawset_globals (L : LuaState) (k v : LuaValue) :
    lua_rawset (push (push L k) v) LUA_GLOBALSINDEX =
      { L with globals := L.globals.rawset k v } := by
  simp only [lua_rawset, index2adr_globals, index2adr_push_below, index2adr_push_top]
  exact lua_pop_push_push { L with globals := L.globals.rawset k v } k v

/-- Registering a list of functions in the table of globals writes each under its name. -/
theorem luaL_register_globals (l : List (String × CFunction)) (L : LuaState) :
    luaL_register (push L (LuaValue.table TableRef.globals)) l =
      push { L with globals :=
              l.foldl (fun t r => t.rawset (LuaValue.string r.1) (LuaValue.cfunction r.2)) L.globals }
        (LuaValue.table TableRef.globals) := by
  induction l generalizing L with
  | nil => cases L; rfl
  | cons r l ih =>
      simp only [luaL_register, List.foldl_cons, lua_pushcfunction, lua_setfield_globals]
      exact ih _

/-- Registering a type touches neither the globals nor the stack. -/
theorem registerType_globals (name : MetatableName) (L : LuaState) :
    (registerType name L).globals = L.globals ∧ (registerType name L).stack = L.stack := by
  unfold registerType
  split
  · simp [lua_createtable, lua_pop, push]
  · exact ⟨rfl, rfl⟩

/-- Registered functions leave every key that is not a string as it was. -/
theorem rawget_register_other (l : List (String × CFunction)) (t : TableObj) (k : LuaValue)
    (hk : ∀ s, k ≠ LuaValue.string s) :
    (l.foldl (fun t r => t.rawset (LuaValue.string r.1) (LuaValue.cfunction r.2)) t).rawget k =
      t.rawget k := by
  induction l generalizing t with
  | nil => rfl
  | cons r l ih =>
      rw [List.foldl_cons, ih]
      simp [TableObj.rawget, TableObj.rawset, hk]

/-- Opening one library table: a new table is allocated and stored under the name. -/
theorem openlib_table (L : LuaState) (n : String) :
    lua_setglobal (lua_createtable L) n =
      { L with
        globals := L.globals.rawset (LuaValue.string n) (LuaValue.table (TableRef.obj L.nextRef))
        heap := fun m => if m = L.nextRef then TableObj.empty else L.heap m
        nextRef := L.nextRef + 1 } := by
  simp only [lua_createtable, lua_setglobal_push]

/-- Opening the library tables keeps the stack and every global under another key. -/
theorem openlibs_tables (l : List String) (L : LuaState) :
    (l.foldl (fun L n => lua_setglobal (lua_createtable L) n) L).stack = L.stack ∧
    ∀ k, (∀ n ∈ l, k ≠ LuaValue.string n) →
      (l.foldl (fun L n => lua_setglobal (lua_createtable L) n) L).globals.rawget k =
        L.globals.rawget k := by
  induction l generalizing L with
  | nil => exact ⟨rfl, fun _ _ => rfl⟩
  | cons n l ih =>
      rw [List.foldl_cons]
      refine ⟨?_, ?_⟩
      · rw [(ih _).1, openlib_table]
      · intro k hk
        rw [(ih _).2 k (fun m hm => hk m (List.mem_cons_of_mem _ hm)), openlib_table]
        simp [TableObj.rawget, TableObj.rawset, hk n (List.mem_cons_self _ _)]

/-- The standard libraries are opened with the stack left as found. -/
theorem luaL_openlibs_stack (L : LuaState) : (luaL_openlibs L).stack = L.stack := by
  simp only [luaL_openlibs, lua_pushvalue_globals, lua_setglobal_push, luaL_register_globals,
    lua_pop_push]
  rw [(openlibs_tables _ _).1]

/-- Opening the standard libraries leaves every key that is not a string as it was. -/
theorem luaL_openlibs_other (L : LuaState) (k : LuaValue) (hk : ∀ s, k ≠ LuaValue.string s) :
    (luaL_openlibs L).globals.rawget k = L.globals.rawget k := by
  simp only [luaL_openlibs, lua_pushvalue_globals, lua_setglobal_push, luaL_register_globals,
    lua_pop_push]
  rw [(openlibs_tables _ _).2 k (fun n _ => hk n)]
  rw [rawget_register_other _ _ _ hk]
  simp [TableObj.rawget, TableObj.rawset, hk]

/-- Opening the standard libraries binds the global `print` to the library function. -/
theorem luaL_openlibs_print (L : LuaState) :
    (luaL_openlibs L).globals.rawget (LuaValue.string "print") =
      LuaValue.cfunction (CFunction.lib "print") := by
  simp only [luaL_openlibs, lua_pushvalue_globals, lua_setglobal_push, luaL_register_globals,
    lua_pop_push]
  rw [(openlibs_tables _ _).2 _ (by simp [stdlibTables])]
  simp [stdlibFunctions, TableObj.rawget, TableObj.rawset]

/-- Registered functions leave every name outside the list as it was. -/
theorem rawget_register_keeps (l : List (String × CFunction)) (t : TableObj) (k : String)
    (hk : ∀ r ∈ l, k ≠ r.1) :
    (l.foldl (fun t r => t.rawset (LuaValue.string r.1) (LuaValue.cfunction r.2)) t).rawget
        (LuaValue.string k) = t.rawget (LuaValue.string k) := by
  induction l generalizing t with
  | nil => rfl
  | cons r l ih =>
      rw [List.foldl_cons, ih _ (fun m hm => hk m (List.mem_cons_of_mem _ hm))]
      simp [TableObj.rawget, TableObj.rawset, hk r (List.mem_cons_self _ _)]

/-- Opening the standard libraries leaves every name they do not define as it was. -/
theorem luaL_openlibs_keeps (L : LuaState) (k : String)
    (hk : k ∉ "_G" :: "_VERSION" :: (stdlibFunctions ++ stdlibTables)) :
    (luaL_openlibs L).globals.rawget (LuaValue.string k) = L.globals.rawget (LuaValue.string k) := by
  simp only [luaL_openlibs, lua_pushvalue_globals, lua_setglobal_push, luaL_register_globals,
    lua_pop_push]
  simp only [List.mem_cons, List.mem_append, not_or] at hk
  rw [(openlibs_tables _ _).2 _ (fun n hn e => hk.2.2.2 (by cases e; exact hn))]
  rw [rawget_register_keeps _ _ _ (fun r hr e => hk.2.2.1 (by
    simp only [List.mem_map] at hr
    obtain ⟨n, hn, rfl⟩ := hr
    rw [e]; exact hn))]
  simp [TableObj.rawget, TableObj.rawset, hk.1, hk.2.1]

/-- The method `openKeyleds` up to its last statement: the controller slot and the functions of `keyledsGlobals` are written to the globals, then the standard libraries are opened. -/
theorem openKeyleds_globals (h : Host) (L : LuaState) (c : Pointer) :
    ∃ L1 : LuaState,
      L1.stack = L.stack ∧
      L1.globals = keyledsGlobals.foldl
        (fun t r => t.rawset (LuaValue.string r.1) (LuaValue.cfunction r.2))
        (L.globals.rawset (LuaValue.lightuserdata h.controllerToken) (LuaValue.lightuserdata c)) ∧
      Environment.openKeyleds h L c = luaL_openlibs L1 := by
  simp only [Environment.openKeyleds, lua_pushlightuserdata, lua_rawset_globals,
    lua_pushvalue_globals, luaL_register_globals, lua_pop_push]
  refine ⟨_, ?_, ?_, rfl⟩
  · simp [registerType_globals]
  · simp [registerType_globals]

/-- C9, on the code: after `openKeyleds` the global `print` is bound to the
`print` of the Lua base library, which the final `luaL_openlibs` stores over
the entry `luaPrint` of `keyledsGlobals`; `fade`, `thread`, `tocolor` and
`wait`, which no standard library defines, stay bound to the entry points of
the runtime. -/
theorem openKeyleds_print (h : Host) (L : LuaState) (c : Pointer) :
    (Environment.openKeyleds h L c).global "print" = LuaValue.cfunction (CFunction.lib "print") ∧
    (Environment.openKeyleds h L c).global "print" ≠ LuaValue.cfunction CFunction.luaPrint ∧
    (Environment.openKeyleds h L c).global "fade" =
      LuaValue.cfunction CFunction.luaNewInterpolator ∧
    (Environment.openKeyleds h L c).global "thread" = LuaValue.cfunction CFunction.luaNewThread ∧
    (Environment.openKeyleds h L c).global "tocolor" = LuaValue.cfunction CFunction.luaToColor ∧
    (Environment.openKeyleds h L c).global "wait" = LuaValue.cfunction CFunction.luaWait := by
  obtain ⟨L1, _, hg, he⟩ := openKeyleds_globals h L c
  have hp := luaL_openlibs_print L1
  refine ⟨?_, ?_, ?_, ?_, ?_, ?_⟩
  · rw [he]; exact hp
  · rw [he]; unfold LuaState.global; rw [hp]; simp
  · rw [he]; unfold LuaState.global
    rw [luaL_openlibs_keeps L1 "fade" (by decide), hg]
    simp [keyledsGlobals, TableObj.rawget, TableObj.rawset]
  · rw [he]; unfold LuaState.global
    rw [luaL_openlibs_keeps L1 "thread" (by decide), hg]
    simp [keyledsGlobals, TableObj.rawget, TableObj.rawset]
  · rw [he]; unfold LuaState.global
    rw [luaL_openlibs_keeps L1 "tocolor" (by decide), hg]
    simp [keyledsGlobals, TableObj.rawget, TableObj.rawset]
  · rw [he]; unfold LuaState.global
    rw [luaL_openlibs_keeps L1 "wait" (by decide), hg]
    simp [keyledsGlobals, TableObj.rawget, TableObj.rawset]

/-- After `openKeyleds(c)` the globals hold the light userdata `c` under the controller token. -/
theorem openKeyleds_slot (h : Host) (L : LuaState) (c : Pointer) :
    (Environment.openKeyleds h L c).globals.rawget (LuaValue.lightuserdata h.controllerToken) =
      LuaValue.lightuserdata c := by
  obtain ⟨L1, _, hg, he⟩ := openKeyleds_globals h L c
  rw [he, luaL_openlibs_other L1 _ (fun s e => by cases e), hg,
    rawget_register_other _ _ _ (fun s e => by cases e)]
  simp [TableObj.rawget, TableObj.rawset]

/-- The method `openKeyleds` leaves the stack as high as it found it (`CHECK_TOP(m_lua, 0)`). -/
theorem openKeyleds_stack (h : Host) (L : LuaState) (c : Pointer) :
    (Environment.openKeyleds h L c).stack = L.stack := by
  obtain ⟨L1, hs, _, he⟩ := openKeyleds_globals h L c
  rw [he, luaL_openlibs_stack, hs]

/-- After `openKeyleds(c)` the method `controller` returns `c`. -/
theorem controller_openKeyleds (h : Host) (L : LuaState) (c : Pointer) :
    (Environment.controller h (Environment.openKeyleds h L c)).1 = c := by
  rw [controller_value, openKeyleds_slot]

/-- Assigning a global under a string key does not change what `controller` returns. -/
theorem controller_setglobal (h : Host) (L : LuaState) (name : String) (v : LuaValue) :
    (Environment.controller h (lua_setglobal (push L v) name)).1 =
      (Environment.controller h L).1 := by
  rw [controller_value, controller_value, lua_setglobal_push]
  simp [TableObj.rawget, TableObj.rawset]

/-- C8: the controller slot round-trips.  On an engine whose slot was never
written, the fresh engine among them, `controller()` returns the null pointer;
after `openKeyleds(c)` it returns `c`; after `openKeyleds(c1)` and then
`openKeyleds(c2)` it returns `c2`; assigning a global under any string key, at
any point and in between those calls too, does not change what it returns;
and every call of `controller()` leaves the whole state, stack and globals, as
it was. -/
theorem controller_roundtrip (h : Host) :
    (Environment.controller h LuaState.fresh).1 = 0 ∧
    (∀ L : LuaState, L.globals.rawget (LuaValue.lightuserdata h.controllerToken) = LuaValue.nil →
      (Environment.controller h L).1 = 0) ∧
    (∀ (L : LuaState) (c : Pointer),
      (Environment.controller h (Environment.openKeyleds h L c)).1 = c) ∧
    (∀ (L : LuaState) (c1 c2 : Pointer),
      (Environment.controller h
        (Environment.openKeyleds h (Environment.openKeyleds h L c1) c2)).1 = c2) ∧
    (∀ (L : LuaState) (name : String) (v : LuaValue),
      (Environment.controller h (lua_setglobal (push L v) name)).1 =
        (Environment.controller h L).1) ∧
    (∀ (L : LuaState) (c : Pointer) (name : String) (v : LuaValue),
      (Environment.controller h
        (lua_setglobal (push (Environment.openKeyleds h L c) v) name)).1 = c) ∧
    (∀ (L : LuaState) (c1 c2 : Pointer) (name : String) (v : LuaValue),
      (Environment.controller h (Environment.openKeyleds h
        (lua_setglobal (push (Environment.openKeyleds h L c1) v) name) c2)).1 = c2) ∧
    (∀ L : LuaState, (Environment.controller h L).2 = L) := by
  refine ⟨?_, ?_, ?_, ?_, ?_, ?_, ?_, ?_⟩
  · rw [controller_value]; rfl
  · intro L hL
    rw [controller_value, hL]
  · exact controller_openKeyleds h
  · intro L c1 c2
    exact controller_openKeyleds h _ c2
  · exact controller_setglobal h
  · intro L c name v
    rw [controller_setglobal, controller_openKeyleds]
  · intro L c1 c2 name v
    exact controller_openKeyleds h _ c2
  · exact controller_state h

/-- C8 on the fresh engine after a script assigned the global `controller`: the slot is still empty. -/
theorem controller_roundtrip_witness :
    (Environment.controller exampleHost
      (lua_setglobal (push LuaState.fresh (LuaValue.number 3)) "controller")).1 = 0 :=
  (controller_roundtrip exampleHost).2.1
    (lua_setglobal (push LuaState.fresh (LuaValue.number 3)) "controller")
    (by rw [lua_setglobal_push]; simp [LuaState.fresh, TableObj.rawget, TableObj.rawset, TableObj.empty])

/-! ## process_data -/

/-- The loop of `process_data` has one exit only, the error raised when `read` fails. -/
theorem process_data_loop_error (io : Fifo) (fuel n : Nat) (L : LuaState) (r : Result)
    (hr : process_data.loop io fuel n L = some r) :
    r.outcome = Outcome.error (LuaError.message "Failed to read from FIFO") := by
  induction fuel generalizing n L with
  | zero => simp [process_data.loop] at hr
  | succ fuel ih =>
      simp only [process_data.loop] at hr
      split_ifs at hr with h1 h2
      · exact ih _ _ hr
      · cases hr
        rfl
      · exact ih _ _ hr

/-- While no `read` fails with an `errno` other than `EAGAIN`, the loop of `process_data` is still running after any number of iterations. -/
theorem process_data_loop_runs (io : Fifo)
    (hio : ∀ n, ¬ ((io.read n).bytes_read = -1 ∧ (io.read n).errno ≠ EAGAIN))
    (fuel n : Nat) (L : LuaState) : process_data.loop io fuel n L = none := by
  induction fuel generalizing n L with
  | zero => rfl
  | succ fuel ih =>
      simp only [process_data.loop]
      split_ifs with h1 h2
      · exact ih _ _
      · exact absurd h2 (hio n)
      · exact ih _ _

/-- C10, on the code: the entry point `process_data`, registered in
`keyledsGlobals`, does not complete on a FIFO that opens and whose reads keep
answering `EAGAIN`: whatever the arguments and however many iterations of its
loop are run, it has neither returned, raised an error nor yielded. -/
theorem process_data_blocks (h : Host) (L : LuaState) (fuel : Nat) :
    process_data h exampleIdleFifo fuel L = none := by
  have hfd : ¬ (exampleIdleFifo.fd (lua_tolstring h L 1).1 = -1) := by
    simp [exampleIdleFifo]
  simp only [process_data, hfd, if_false]
  exact process_data_loop_runs exampleIdleFifo (fun n => by simp [exampleIdleFifo]) fuel 0 _

/-! ## print -/

/-- Overwriting the slot on top replaces the value pushed last. -/
theorem setSlot_push_top (L : LuaState) (v w : LuaValue) : setSlot (push L v) (-1) w = push L w := by
  cases L
  simp [setSlot, push]

/-- The function `lua_tolstring` on the value on top: what it answers, and
that popping afterwards restores the state. -/
theorem lua_tolstring_push (h : Host) (L : LuaState) (v : LuaValue) :
    (lua_tolstring h (push L v) (-1)).1 = v.tolstring h ∧
      lua_pop (lua_tolstring h (push L v) (-1)).2 1 = L := by
  unfold lua_tolstring
  rw [index2adr_push_top]
  cases v <;> simp [LuaValue.tolstring, lua_pop_push, setSlot_push_top]

/-- The protected call replaces the function and its argument by the value
the host gives, in the engine the called code left. -/
theorem lua_pcall_push (h : Host) (L : LuaState) (f a : LuaValue) :
    lua_pcall h (push (push L f) a) =
      (push (L.afterCall (h.pcall L f a).2.1) (h.pcall L f a).1, (h.pcall L f a).2.2) := by
  simp [lua_pcall, index2adr_push_below, index2adr_push_top, lua_pop_push_push]

/-- The argument at a positive index, with one more value pushed above the arguments. -/
theorem index2adr_arg (L : LuaState) (done rest : List LuaValue) (v f : LuaValue)
    (hs : L.stack = done ++ v :: rest) :
    index2adr (push L f) ((done.length : Int) + 1) = some v := by
  have hpos : (0 : Int) < (done.length : Int) + 1 := by omega
  simp [index2adr, hpos, push, hs]
  rw [List.getElem_append_right (Nat.le_refl _)]
  simp

/-- A state is what a call that changed nothing leaves of it. -/
theorem afterCall_self (L : LuaState) : L.afterCall L = L := by
  cases L
  rfl

/-- The conversions leave the frame and the call counters of the caller, and
give one text for each argument. -/
theorem tostringAll_frame (h : Host) (vs : List LuaValue) :
    ∀ (S S' : LuaState) (ts : List String) (events : List Event),
      tostringAll h vs S = some (ts, S', events) →
      S'.stack = S.stack ∧ S'.nCcalls = S.nCcalls ∧ S'.baseCcalls = S.baseCcalls ∧
        ts.length = vs.length := by
  induction vs with
  | nil =>
      intro S S' ts events ht
      simp only [tostringAll, Option.some.injEq, Prod.mk.injEq] at ht
      obtain ⟨rfl, rfl, _⟩ := ht
      exact ⟨rfl, rfl, rfl, rfl⟩
  | cons v vs ih =>
      intro S S' ts events ht
      simp only [tostringAll] at ht
      split at ht
      · rename_i t ts1 S1 ev1 _ h2
        simp only [Option.some.injEq, Prod.mk.injEq] at ht
        obtain ⟨rfl, rfl, _⟩ := ht
        have := ih _ _ _ _ h2
        exact ⟨this.1, this.2.1, this.2.2.1, by simp [this.2.2.2]⟩
      · cases ht

/-- When the protected calls change nothing in the engine and call nothing on
the controller, as with the `tostring` of the base library on values without
metamethod, the conversions leave the state they started in and no calls. -/
theorem tostringAll_quiet (h : Host) (hq : ∀ S f a, (h.pcall S f a).2 = (S, []))
    (vs : List LuaValue) :
    ∀ (S S' : LuaState) (ts : List String) (events : List Event),
      tostringAll h vs S = some (ts, S', events) → S' = S ∧ events = [] := by
  induction vs with
  | nil =>
      intro S S' ts events ht
      simp only [tostringAll, Option.some.injEq, Prod.mk.injEq] at ht
      exact ⟨ht.2.1.symm, ht.2.2.symm⟩
  | cons v vs ih =>
      intro S S' ts events ht
      simp only [tostringAll, hq, afterCall_self] at ht
      split at ht
      · rename_i t ts1 S1 ev1 _ h2
        simp only [Option.some.injEq, Prod.mk.injEq] at ht
        obtain ⟨_, rfl, rfl⟩ := ht
        have := ih _ _ _ _ h2
        exact ⟨this.1, by simp [this.2]⟩
      · cases ht

/-- The loop of `luaPrint` over the remaining arguments makes the conversions
of `tostringAll`, restores the frame after each and appends the C strings of
the texts in order. -/
theorem luaPrint_loop (h : Host) (rest : List LuaValue) :
    ∀ (done : List LuaValue) (L : LuaState) (buffer : String) (events : List Event),
      L.stack = done ++ rest →
      luaPrint.loop h rest.length ((done.length : Int) + 1) L buffer events =
        (tostringAll h rest L).map
          (fun r => (r.2.1, r.1.foldl (fun b t => b ++ cstring t) buffer, events ++ r.2.2)) := by
  induction rest with
  | nil =>
      intro done L buffer events _
      simp [luaPrint.loop, tostringAll]
  | cons v rest ih =>
      intro done L buffer events hs
      have hv : lua_pushvalue (lua_getglobal L "tostring") ((done.length : Int) + 1) =
          push (push L (L.global "tostring")) v := by
        simp only [lua_getglobal, lua_getfield, index2adr_globals, lua_pushvalue,
          index2adr_arg L done rest v _ hs]
        rfl
      have hl := lua_tolstring_push h (L.afterCall (h.pcall L (L.global "tostring") v).2.1)
        (h.pcall L (L.global "tostring") v).1
      simp only [List.length_cons, luaPrint.loop, hv, lua_pcall_push, tostringAll]
      rcases hp : lua_tolstring h (push (L.afterCall (h.pcall L (L.global "tostring") v).2.1)
        (h.pcall L (L.global "tostring") v).1) (-1) with ⟨s, L2⟩
      rw [hp] at hl
      simp only at hl
      obtain ⟨hl1, hl2⟩ := hl
      rw [← hl1]
      cases s with
      | none => simp
      | some t =>
          simp only [hl2]
          have hst : (L.afterCall (h.pcall L (L.global "tostring") v).2.1).stack =
              (done ++ [v]) ++ rest := by
            simp [LuaState.afterCall, hs]
          have := ih (done ++ [v]) _ (buffer ++ cstring t)
            (events ++ (h.pcall L (L.global "tostring") v).2.2) hst
          simp only [List.length_append, List.length_singleton, Nat.cast_add, Nat.cast_one] at this
          rw [this]
          cases tostringAll h rest (L.afterCall (h.pcall L (L.global "tostring") v).2.1) with
          | none => rfl
          | some r => simp [List.append_assoc]

/-- The entry point `luaPrint` in terms of the conversions, when each leaves a
string or a number. -/
theorem luaPrint_of_tostringAll (h : Host) (L S : LuaState) (ts : List String)
    (events : List Event) (ht : tostringAll h L.stack L = some (ts, S, events)) :
    luaPrint h L =
      if (Environment.controller h S).1 = 0 then luaL_error S LuaError.noEffectToken events
      else
        { outcome := Outcome.returned 0, lua := S,
          events := events ++
            [Event.print (Environment.controller h S).1
              (ts.foldl (fun b t => b ++ cstring t) "")] } := by
  have hloop := luaPrint_loop h L.stack [] L "" [] rfl
  simp only [List.length_nil, Nat.cast_zero, zero_add, ht, Option.map_some', List.nil_append]
    at hloop
  simp [luaPrint, lua_gettop, hloop, controller_state]

/-- When a conversion leaves neither a string nor a number, `luaPrint` streams
a null pointer. -/
theorem luaPrint_undefined (h : Host) (L : LuaState) (ht : tostringAll h L.stack L = none) :
    (luaPrint h L).outcome = Outcome.undefined := by
  have hloop := luaPrint_loop h L.stack [] L "" [] rfl
  simp only [List.length_nil, Nat.cast_zero, zero_add, ht, Option.map_none'] at hloop
  simp [luaPrint, lua_gettop, hloop]

/-- A string without NUL is inserted whole. -/
theorem cstring_of_no_nul (s : String) (hs : Char.ofNat 0 ∉ s.data) : cstring s = s := by
  unfold cstring
  have : s.data.takeWhile (fun c => c ≠ Char.ofNat 0) = s.data := by
    rw [List.takeWhile_eq_self_iff]
    intro c hc
    simp only [ne_eq, decide_not, Bool.not_eq_true', decide_eq_false_iff_not]
    intro e
    exact hs (e ▸ hc)
  rw [this]

/-- Opening the standard libraries binds the global `tostring` to the library function. -/
theorem luaL_openlibs_tostring (L : LuaState) :
    (luaL_openlibs L).globals.rawget (LuaValue.string "tostring") =
      LuaValue.cfunction (CFunction.lib "tostring") := by
  simp only [luaL_openlibs, lua_pushvalue_globals, lua_setglobal_push, luaL_register_globals,
    lua_pop_push]
  rw [(openlibs_tables _ _).2 _ (by simp [stdlibTables])]
  simp [stdlibFunctions, TableObj.rawget, TableObj.rawset]

/-- On the example engine `openKeyleds` left, the global `tostring` is the
library function and the controller is attached. -/
theorem exampleOpened_globals (c : Pointer) (args : List LuaValue) :
    (exampleOpened c args).global "tostring" = LuaValue.cfunction (CFunction.lib "tostring") ∧
    (Environment.controller exampleHost (exampleOpened c args)).1 = c := by
  have e : (exampleOpened c args).globals =
      (Environment.openKeyleds exampleHost LuaState.fresh c).globals := by
    simp only [exampleOpened]
  refine ⟨?_, ?_⟩
  · obtain ⟨L1, _, _, he⟩ := openKeyleds_globals exampleHost LuaState.fresh c
    unfold LuaState.global
    rw [e, he]
    exact luaL_openlibs_tostring L1
  · rw [controller_value, e, openKeyleds_slot]

/-- The conversions of the example host on string arguments: each string is
its own text, the engine is left as it was and nothing is called on the
controller. -/
theorem exampleHost_tostringAll (S : LuaState)
    (hS : S.global "tostring" = LuaValue.cfunction (CFunction.lib "tostring"))
    (vs : List String) :
    tostringAll exampleHost (vs.map LuaValue.string) S = some (vs, S, []) := by
  induction vs with
  | nil => rfl
  | cons v vs ih =>
      simp only [List.map_cons, tostringAll, hS]
      have e : exampleHost.pcall S (LuaValue.cfunction (CFunction.lib "tostring"))
          (LuaValue.string v) = (LuaValue.string v, S, []) := by
        simp [exampleHost]
      rw [e]
      simp only [afterCall_self, ih, LuaValue.tolstring]
      rfl

/-- C6 fails as stated: `print("a\0b")` on the engine `openKeyleds(1)` left.
The script-level `tostring` of the argument is the argument itself, three
bytes long, so the concatenation the claim names is those three bytes; the
call returns no value and hands the one byte "a" to the controller, as the C
string that `lua_tostring` answers ends at the first NUL. -/
theorem luaPrint_truncates :
    tostringAll exampleHost [LuaValue.string "a\x00b"]
        (exampleOpened 1 [LuaValue.string "a\x00b"]) =
      some (["a\x00b"], exampleOpened 1 [LuaValue.string "a\x00b"], []) ∧
    (luaPrint exampleHost (exampleOpened 1 [LuaValue.string "a\x00b"])).outcome =
      Outcome.returned 0 ∧
    (luaPrint exampleHost (exampleOpened 1 [LuaValue.string "a\x00b"])).events =
      [Event.print 1 "a"] ∧
    "a" ≠ "a\x00b" := by
  have hg := exampleOpened_globals 1 [LuaValue.string "a\x00b"]
  have ht := exampleHost_tostringAll (exampleOpened 1 [LuaValue.string "a\x00b"]) hg.1 ["a\x00b"]
  have hp := luaPrint_of_tostringAll exampleHost (exampleOpened 1 [LuaValue.string "a\x00b"]) _ _ _
    ht
  rw [hg.2] at hp
  refine ⟨ht, ?_, ?_, by decide⟩
  · rw [hp]; rfl
  · rw [hp]
    simp [cstring]

/-- C6, amended: `luaPrint` has each argument converted in order by a
protected call of the global `tostring`, in the engine the conversions before
left.  When every conversion leaves a string or a number there is one text for
each argument, the frame is afterwards as at entry, and the controller is
resolved then: if none is attached the call raises the no-controller error and
`luaPrint` forwards nothing; otherwise `luaPrint` calls `print` on the
controller exactly once, after all conversions, with the C strings of the
texts (the bytes before the first NUL of each) appended in argument order to
the empty buffer without separator, and returns no value. -/
theorem luaPrint_forwards (h : Host) (L S : LuaState) (ts : List String) (events : List Event)
    (ht : tostringAll h L.stack L = some (ts, S, events)) :
    ts.length = L.stack.length ∧
    S.stack = L.stack ∧
    ((Environment.controller h S).1 = 0 →
      (luaPrint h L).outcome = Outcome.error LuaError.noEffectToken ∧
      (luaPrint h L).events = events ∧
      (luaPrint h L).values = [] ∧
      (luaPrint h L).lua = S) ∧
    (∀ c : Pointer, (Environment.controller h S).1 = c → c ≠ 0 →
      (luaPrint h L).outcome = Outcome.returned 0 ∧
      (luaPrint h L).events =
        events ++ [Event.print c (ts.foldl (fun b t => b ++ cstring t) "")] ∧
      (luaPrint h L).values = [] ∧
      (luaPrint h L).lua = S) := by
  have hf := tostringAll_frame h L.stack L S ts events ht
  have hp := luaPrint_of_tostringAll h L S ts events ht
  refine ⟨hf.2.2.2, hf.1, ?_, ?_⟩
  · intro hc
    rw [hp]
    simp [hc, luaL_error, Result.values]
  · intro c hc hne
    rw [hp]
    simp [hc, hne, Result.values]

/-- C6, amended, at `print("ab", "cd")` on the engine `openKeyleds(1)` left:
the controller is handed "abcd", once. -/
theorem luaPrint_forwards_witness :
    (luaPrint exampleHost (exampleOpened 1 [LuaValue.string "ab", LuaValue.string "cd"])).events =
      [Event.print 1 "abcd"] := by
  have hg := exampleOpened_globals 1 [LuaValue.string "ab", LuaValue.string "cd"]
  have hw := ((luaPrint_forwards exampleHost
    (exampleOpened 1 [LuaValue.string "ab", LuaValue.string "cd"]) _ ["ab", "cd"] []
    (exampleHost_tostringAll _ hg.1 ["ab", "cd"])).2.2.2 1 hg.2 (by decide)).2.1
  rw [hw]
  simp [cstring]

end keyleds
